import Mathlib

/-!
Shallow embedding of the `okta-jwt-verifier` crate (final revision in
`src/lib.rs`): the key material model (`Jwk`, `Jwks`), the keystore
construction from a fetched JWKS response (`get`), the `Verifier`
configuration builders (`client_id`, `audience`, `add_audience`, `leeway`),
and the `verify` pipeline (`key_id` → keystore lookup → `decode`).

Tokens are modelled symbolically: an RSA signature is abstracted to the
public-key material `(n, e)` of the key whose private counterpart produced
it, together with the algorithm actually used to sign.  The behaviour of
`jsonwebtoken::decode` (v8: verify signature, deserialize the claims, then
validate `exp`/`iss`/`aud` with `Validation` defaults `leeway = 60`,
`validate_exp = true`, `required_spec_claims = ["exp"]`) is embedded in
`jwtDecode`/`jwtDecodeClientId`, with the current time `now` passed
explicitly.  Rust's `u64` subtraction `now - leeway` is modelled by `Nat`
truncated subtraction; theorems that depend on it carry the hypothesis
`leeway ≤ now`, which holds for every realistic clock value.
-/

/-- Signing algorithms relevant to the crate (the `jsonwebtoken` enum,
restricted to the variants the claims exercise). -/
inductive Alg where
  | RS256
  | RS384
  | RS512
  | HS256
  | ES256
  deriving DecidableEq, Repr

/-- Jwk struct from `src/lib.rs` (lines 92-116): the key retrieved from
upstream, with RSA public material `(e, n)` and metadata. -/
structure Jwk where
  kty : String
  alg : String
  kid : String
  uses : String
  e : String
  n : String
  deriving DecidableEq, Repr

/-- Model of `std::collections::HashMap<String, Jwk>` as an extensional map. -/
def KeyMap : Type := String → Option Jwk

/-- Model of `HashMap::new()`. -/
def KeyMap.empty : KeyMap := fun _ => none

/-- Model of `HashMap::insert`: the new binding shadows any earlier one. -/
def KeyMap.insert (m : KeyMap) (k : String) (v : Jwk) : KeyMap :=
  fun x => if x = k then some v else m x

/-- Jwks struct from `src/lib.rs` (lines 119-122): container for keys. -/
structure Jwks where
  inner : KeyMap

/-- Function `Jwks::where_id` from `src/lib.rs` (lines 137-140): retrieve a
key by id via `self.inner.get(kid)`. -/
def Jwks.where_id (j : Jwks) (kid : String) : Option Jwk :=
  j.inner kid

/-- Keystore construction from `get` in `src/lib.rs` (lines 396-400): insert
each fetched key under its `kid`, in response order, into an empty map. -/
def buildJwks (keys : List Jwk) : Jwks :=
  ⟨keys.foldl (fun m k => m.insert k.kid k) KeyMap.empty⟩

/-- Token header: the algorithm and the optional key id, the two fields the
crate reads via `jsonwebtoken::decode_header`. -/
structure Header where
  alg : Alg
  kid : Option String
  deriving DecidableEq, Repr

/-- Token payload, covering the claims the crate validates (`iss`, `exp`,
`aud`, `cid`) plus `sub`/`iat` from `DefaultClaims`.  A `none` field models
the claim being absent from the JSON payload. -/
structure Payload where
  iss : Option String := none
  sub : Option String := none
  exp : Option Nat := none
  iat : Option Nat := none
  cid : Option String := none
  aud : Option String := none
  deriving DecidableEq, Repr

/-- Abstract RSA signature: the public material `(n, e)` of the signing key
pair and the algorithm used to produce the signature. -/
structure Sig where
  n : String
  e : String
  alg : Alg
  deriving DecidableEq, Repr

/-- Compact JWT, structurally: header, payload, and an optional signature
(`none` models a signature that matches no key, e.g. a tampered one). -/
structure Token where
  header : Header
  payload : Payload
  sig : Option Sig
  deriving DecidableEq, Repr

/-- Sign a payload with the private counterpart of the RSA key `(n, e)`,
using algorithm `alg` and advertising key id `kid` in the header. -/
def signToken (n e : String) (alg : Alg) (kid : Option String) (p : Payload) : Token :=
  ⟨⟨alg, kid⟩, p, some ⟨n, e, alg⟩⟩

/-- Errors of the pipeline.  `jsonwebtoken` error kinds relevant here
(spec taxonomy names in parentheses): `invalidSignature` (SignatureInvalid),
`expiredSignature` (TokenExpired), `invalidIssuer` (IssuerMismatch),
`invalidAudience` (AudienceMismatch), `jsonError` (ClaimDeserializeError),
`invalidAlgorithm` for a header algorithm outside the allowed set, and
`missingRequiredClaim` for a required spec claim absent from the payload. -/
inductive JwtError where
  | invalidSignature
  | invalidAlgorithm
  | expiredSignature
  | invalidIssuer
  | invalidAudience
  | missingRequiredClaim (c : String)
  | jsonError
  deriving DecidableEq, Repr

/-- Validation parameters of `jsonwebtoken` (v8 `Validation`), restricted to
the fields the crate touches. -/
structure Validation where
  required_spec_claims : List String
  algorithms : List Alg
  leeway : Nat
  validate_exp : Bool
  validate_aud : Bool
  aud : Option (Finset String)
  iss : Option (Finset String)

/-- Defaults of `jsonwebtoken::Validation::new(alg)` (v8): required claims
`["exp"]`, the single given algorithm, leeway 60 seconds, `validate_exp`
and `validate_aud` on, no audience and no issuer configured. -/
def Validation.new (alg : Alg) : Validation :=
  ⟨["exp"], [alg], 60, true, true, none, none⟩

/-- Signature step of `jsonwebtoken::decode`: the header algorithm must be
in the allowed set, and the signature must have been produced with the
given key material under the header's algorithm. -/
def verifySignature (t : Token) (keyN keyE : String) (val : Validation) :
    Except JwtError Payload :=
  if t.header.alg ∈ val.algorithms then
    match t.sig with
    | some s =>
        if s.n = keyN ∧ s.e = keyE ∧ s.alg = t.header.alg then
          .ok t.payload
        else
          .error .invalidSignature
    | none => .error .invalidSignature
  else
    .error .invalidAlgorithm

/-- Audience step of `jsonwebtoken`'s claim validation: checked only when
the validation carries an audience set; a single `aud` claim must then be a
member, and an absent `aud` claim fails while `validate_aud` is on. -/
def checkAud (p : Payload) (val : Validation) : Except JwtError Unit :=
  match val.aud with
  | none => .ok ()
  | some auds =>
      match p.aud with
      | some a => if a ∈ auds then .ok () else .error .invalidAudience
      | none => if val.validate_aud then .error .invalidAudience else .ok ()

/-- Claim validation of `jsonwebtoken::decode` (v8): required spec claims,
then expiry against `now` with leeway (`exp < now - leeway` is expired),
then issuer membership, then audience. -/
def validateClaims (now : Nat) (p : Payload) (val : Validation) :
    Except JwtError Unit :=
  if "exp" ∈ val.required_spec_claims ∧ p.exp = none then
    .error (.missingRequiredClaim "exp")
  else if val.validate_exp ∧ (∃ x, p.exp = some x ∧ x < now - val.leeway) then
    .error .expiredSignature
  else
    match val.iss with
    | some isss =>
        match p.iss with
        | some i => if i ∈ isss then checkAud p val else .error .invalidIssuer
        | none => .error .invalidIssuer
    | none => checkAud p val

instance (now : Nat) (p : Payload) (val : Validation) :
    Decidable (∃ x, p.exp = some x ∧ x < now - val.leeway) :=
  match h : p.exp with
  | some x =>
      if hx : x < now - val.leeway then
        .isTrue ⟨x, rfl, hx⟩
      else
        .isFalse (by rintro ⟨y, hy, hlt⟩; cases hy; exact hx hlt)
  | none => .isFalse (by rintro ⟨y, hy, _⟩; cases hy)

/-- Model of `jsonwebtoken::decode::<T>` for the caller's claim type, which
the crate deserializes from the full payload: verify the signature, then
validate the claims, returning the payload on success. -/
def jwtDecode (now : Nat) (t : Token) (keyN keyE : String) (val : Validation) :
    Except JwtError Payload :=
  match verifySignature t keyN keyE val with
  | .error e => .error e
  | .ok claims =>
      match validateClaims now claims val with
      | .error e => .error e
      | .ok _ => .ok claims

/-- Model of `jsonwebtoken::decode::<ClientId>` (the `{cid: String}`
projection from `src/lib.rs` lines 131-134): verify the signature, then
deserialize the projection — failing with a JSON error when the payload
carries no `cid` — then validate the claims. -/
def jwtDecodeClientId (now : Nat) (t : Token) (keyN keyE : String)
    (val : Validation) : Except JwtError String :=
  match verifySignature t keyN keyE val with
  | .error e => .error e
  | .ok claims =>
      match claims.cid with
      | none => .error .jsonError
      | some c =>
          match validateClaims now claims val with
          | .error e => .error e
          | .ok _ => .ok c

/-- Errors surfaced by `Verifier` itself: the three `bail!` sites of
`src/lib.rs` plus propagated `jsonwebtoken` errors. -/
inductive VerifyError where
  | noKeyId
  | noMatchingKey
  | clientIdMismatch
  | keyParse
  | jwt (e : JwtError)
  deriving DecidableEq, Repr

/-- Model of the fallible `JsonWebKey` parse at `src/lib.rs` line 356
(`serde_json::to_string(key_jwk)?.parse()?`): the `jsonwebkey` 0.3 crate's
`Algorithm` enum has only the variants `HS256`, `RS256` and `ES256`, so a
key declaring any other `alg` value fails to deserialize (a serde
unknown-variant error) and `decode` bails before any `jsonwebtoken` work.
The remaining fields (`kty`, `use`, the base64url material `e`/`n`) are
assumed well-formed, as they are in every input considered here; on
success the decoder uses the RSA public material `(n, e)`. -/
def jwkParses (k : Jwk) : Bool :=
  k.alg = "RS256" ∨ k.alg = "HS256" ∨ k.alg = "ES256"

/-- Verifier struct from `src/lib.rs` (lines 160-166). -/
structure Verifier where
  issuer : String
  cid : Option String
  leeway : Option Nat
  aud : Option (Finset String)
  keys : Jwks

/-- Constructor body of `Verifier::new` (`src/lib.rs` lines 171-180) after
the key fetch: issuer stored, no cid, no leeway override, no audience, and
the keystore built from the fetched key list. -/
def Verifier.new (issuer : String) (fetched : List Jwk) : Verifier :=
  ⟨issuer, none, none, none, buildJwks fetched⟩

/-- Builder `Verifier::client_id` from `src/lib.rs` (lines 250-253). -/
def Verifier.client_id (v : Verifier) (cid : String) : Verifier :=
  { v with cid := some cid }

/-- Builder `Verifier::audience` from `src/lib.rs` (lines 278-281):
`self.aud = Some(audience)`. -/
def Verifier.audience (v : Verifier) (audience : Finset String) : Verifier :=
  { v with aud := some audience }

/-- Builder `Verifier::add_audience` from `src/lib.rs` (lines 302-311).
When `self.aud` is `Some`, the source clones it (`self.aud.clone()`),
inserts into the clone, and drops the clone without writing it back, so
`self.aud` is returned unchanged; only the `None` branch stores the new
singleton set. -/
def Verifier.add_audience (v : Verifier) (audience : String) : Verifier :=
  match v.aud with
  | some _ => v
  | none => { v with aud := some {audience} }

/-- Builder `Verifier::leeway` from `src/lib.rs` (lines 332-335), named
`set_leeway` here because the struct field is already called `leeway`. -/
def Verifier.set_leeway (v : Verifier) (leeway : Nat) : Verifier :=
  { v with leeway := some leeway }

/-- Function `Verifier::key_id` from `src/lib.rs` (lines 338-345): read the
header's `kid`, failing with `No key id found!` when it is absent. -/
def Verifier.key_id (_v : Verifier) (t : Token) : Except VerifyError String :=
  match t.header.kid with
  | some kid => .ok kid
  | none => .error .noKeyId

/-- Validation used by the main decode in `Verifier::decode`
(`src/lib.rs` lines 369-378): starting from `Validation::new(RS256)`, set
`leeway` to the configured override or the 120-second default, `aud` to the
configured audience set, and `iss` to the singleton of the issuer. -/
def Verifier.mainValidation (v : Verifier) : Validation :=
  { Validation.new .RS256 with
      leeway := match v.leeway with
        | some secs => secs
        | none => 120
      aud := v.aud
      iss := some {v.issuer} }

/-- Preliminary cid check of `Verifier::decode` (`src/lib.rs` lines
358-368): when a `client_id` is configured, decode the `ClientId`
projection with the untouched `Validation::new(RS256)` (default leeway 60,
no issuer, no audience) and fail with `client_id validation failed!` when
the token's `cid` differs from the configured one. -/
def Verifier.cidCheck (v : Verifier) (now : Nat) (t : Token) (keyJwk : Jwk) :
    Except VerifyError Unit :=
  match v.cid with
  | none => .ok ()
  | some cid =>
      match jwtDecodeClientId now t keyJwk.n keyJwk.e (Validation.new .RS256) with
      | .error e => .error (.jwt e)
      | .ok c => if c ≠ cid then .error .clientIdMismatch else .ok ()

/-- Body of `Verifier::decode` from `src/lib.rs` (lines 348-385): first the
`JsonWebKey` parse of the serialized `Jwk` (line 356, fallible — see
`jwkParses`), then the preliminary cid check, then the main decode with the
fully configured validation. -/
def Verifier.decode (v : Verifier) (now : Nat) (t : Token) (keyJwk : Jwk) :
    Except VerifyError Payload :=
  if jwkParses keyJwk then
    match v.cidCheck now t keyJwk with
    | .error e => .error e
    | .ok _ =>
        match jwtDecode now t keyJwk.n keyJwk.e v.mainValidation with
        | .error e => .error (.jwt e)
        | .ok p => .ok p
  else
    .error .keyParse

/-- Function `Verifier::verify` from `src/lib.rs` (lines 220-230): extract
the key id, look it up in the keystore, and decode with the matching key,
failing with `No matching key found!` when the lookup misses. -/
def Verifier.verify (v : Verifier) (now : Nat) (t : Token) :
    Except VerifyError Payload :=
  match v.key_id t with
  | .error e => .error e
  | .ok kid =>
      match v.keys.where_id kid with
      | some keyJwk => v.decode now t keyJwk
      | none => .error .noMatchingKey

/-! Projection lemmas for the two validations the pipeline builds. -/

@[simp]
theorem mainValidation_required (v : Verifier) :
    v.mainValidation.required_spec_claims = ["exp"] := rfl

@[simp]
theorem mainValidation_algorithms (v : Verifier) :
    v.mainValidation.algorithms = [Alg.RS256] := rfl

@[simp]
theorem mainValidation_validate_exp (v : Verifier) :
    v.mainValidation.validate_exp = true := rfl

@[simp]
theorem mainValidation_validate_aud (v : Verifier) :
    v.mainValidation.validate_aud = true := rfl

@[simp]
theorem mainValidation_aud (v : Verifier) :
    v.mainValidation.aud = v.aud := rfl

@[simp]
theorem mainValidation_iss (v : Verifier) :
    v.mainValidation.iss = some {v.issuer} := rfl

theorem mainValidation_leeway (v : Verifier) :
    v.mainValidation.leeway = v.leeway.getD 120 := by
  cases h : v.leeway <;> simp [Verifier.mainValidation, h]

/-! Concrete fixtures used by the counterexamples and witnesses below. -/

/-- RSA key fixture declaring algorithm RS256 under key id `kid1`. -/
def kRS256 : Jwk := ⟨"RSA", "RS256", "kid1", "sig", "AQAB", "mod1"⟩

/-- RSA key fixture declaring algorithm RS384 under key id `kid1`. -/
def kRS384 : Jwk := ⟨"RSA", "RS384", "kid1", "sig", "AQAB", "mod1"⟩

/-- Payload fixture: issued by `https://issuer`, expiring at 2000. -/
def basePayload : Payload :=
  { iss := some "https://issuer", sub := some "user-1", exp := some 2000 }

/-- Token fixture: `basePayload` signed with RS256 by the private
counterpart of `kRS256`, advertising `kid1`. -/
def baseToken : Token := signToken "mod1" "AQAB" .RS256 (some "kid1") basePayload

/-- Verifier fixture holding only `kRS256`, no cid, no leeway override, no
audience. -/
def baseVerifier : Verifier := Verifier.new "https://issuer" [kRS256]

@[simp]
theorem signToken_header (n e : String) (alg : Alg) (kid : Option String)
    (p : Payload) : (signToken n e alg kid p).header = ⟨alg, kid⟩ := rfl

@[simp]
theorem signToken_payload (n e : String) (alg : Alg) (kid : Option String)
    (p : Payload) : (signToken n e alg kid p).payload = p := rfl

@[simp]
theorem signToken_sig (n e : String) (alg : Alg) (kid : Option String)
    (p : Payload) : (signToken n e alg kid p).sig = some ⟨n, e, alg⟩ := rfl

/-- Signature verification accepts a token signed with the very key
material handed to the decoder, provided RS256 is an allowed algorithm. -/
theorem verifySignature_signToken (n e : String) (kid : Option String)
    (p : Payload) (val : Validation) (h : Alg.RS256 ∈ val.algorithms) :
    verifySignature (signToken n e .RS256 kid p) n e val = .ok p := by
  simp [verifySignature, h]

/-- Claim validation under the main validation succeeds when `exp` is
present and not beyond the effective leeway, `iss` matches the configured
issuer, and the audience constraint is met. -/
theorem validateClaims_main_ok (v : Verifier) (now : Nat) (p : Payload) (x : Nat)
    (hiss : p.iss = some v.issuer)
    (hexp : p.exp = some x)
    (hfresh : ¬ x < now - v.leeway.getD 120)
    (haud : v.aud = none ∨
      ∃ a auds, p.aud = some a ∧ v.aud = some auds ∧ a ∈ auds) :
    validateClaims now p v.mainValidation = .ok () := by
  have hfresh2 : ¬ x < now - v.mainValidation.leeway := by
    rw [mainValidation_leeway]; exact hfresh
  rcases haud with h | ⟨a, auds, ha, hauds, hmem⟩
  · simp [validateClaims, checkAud, hexp, hiss, hfresh2, h]
  · simp [validateClaims, checkAud, hexp, hiss, hfresh2, ha, hauds, hmem]

/-- Verification succeeds end to end on a well-signed, well-claimed token
when no client id is configured. -/
theorem verify_no_cid_ok (v : Verifier) (now : Nat) (kid : String) (k : Jwk)
    (p : Payload) (x : Nat)
    (hk : v.keys.where_id kid = some k)
    (hparse : jwkParses k = true)
    (hcid : v.cid = none)
    (hiss : p.iss = some v.issuer)
    (hexp : p.exp = some x)
    (hfresh : ¬ x < now - v.leeway.getD 120)
    (haud : v.aud = none ∨
      ∃ a auds, p.aud = some a ∧ v.aud = some auds ∧ a ∈ auds) :
    v.verify now (signToken k.n k.e .RS256 (some kid) p) = .ok p := by
  have hsig := verifySignature_signToken k.n k.e (some kid) p v.mainValidation
    (by simp)
  have hval := validateClaims_main_ok v now p x hiss hexp hfresh haud
  simp [Verifier.verify, Verifier.key_id, hk, Verifier.decode, hparse,
    Verifier.cidCheck, hcid, jwtDecode, hsig, hval]

/-- C3: for every token signed with the private counterpart of a key in the
Verifier's keystore (selected by the header `kid`), whose `iss` equals the
configured issuer, whose `exp` is within leeway of `now`, and whose `aud`
satisfies the configured audience set (or none is configured) — with no
client id configured — `verify` succeeds and returns exactly the signed
payload: sign then verify is the identity on the claims. -/
theorem c3_sign_verify_roundtrip (v : Verifier) (now : Nat) (kid : String)
    (k : Jwk) (p : Payload) (x : Nat)
    (hk : v.keys.where_id kid = some k)
    (hparse : jwkParses k = true)
    (hcid : v.cid = none)
    (hiss : p.iss = some v.issuer)
    (hexp : p.exp = some x)
    (hlee : v.leeway.getD 120 ≤ now)
    (hfresh : ¬ x < now - v.leeway.getD 120)
    (haud : v.aud = none ∨
      ∃ a auds, p.aud = some a ∧ v.aud = some auds ∧ a ∈ auds) :
    v.verify now (signToken k.n k.e .RS256 (some kid) p) = .ok p :=
  verify_no_cid_ok v now kid k p x hk hparse hcid hiss hexp hfresh haud

/-- Witness for C3 at a concrete verifier, key and payload. -/
theorem c3_sign_verify_roundtrip_witness :
    baseVerifier.verify 1000 baseToken = .ok basePayload :=
  c3_sign_verify_roundtrip baseVerifier 1000 "kid1" kRS256 basePayload 2000
    rfl rfl rfl rfl rfl (by decide) (by decide) (Or.inl rfl)

/-- C5 (amended): with no client id configured, `verify` fails with
TokenExpired exactly when `exp < now - leeway` (leeway 120 by default, else
the configured override), so a token expired by more than the leeway fails,
one expired by less verifies, and the boundary `now - exp = leeway`
verifies.  When a client id is configured, the preliminary cid decode
instead applies the `jsonwebtoken` default leeway of 60 seconds (see the
counterexample). -/
theorem c5_token_expiry_boundary (v : Verifier) (now : Nat) (kid : String)
    (k : Jwk) (p : Payload) (x : Nat)
    (hk : v.keys.where_id kid = some k)
    (hparse : jwkParses k = true)
    (hcid : v.cid = none)
    (hiss : p.iss = some v.issuer)
    (hexp : p.exp = some x)
    (hlee : v.leeway.getD 120 ≤ now)
    (haud : v.aud = none ∨
      ∃ a auds, p.aud = some a ∧ v.aud = some auds ∧ a ∈ auds) :
    if x < now - v.leeway.getD 120 then
      v.verify now (signToken k.n k.e .RS256 (some kid) p) =
        .error (.jwt .expiredSignature)
    else
      v.verify now (signToken k.n k.e .RS256 (some kid) p) = .ok p := by
  by_cases hx : x < now - v.leeway.getD 120
  · rw [if_pos hx]
    have hsig := verifySignature_signToken k.n k.e (some kid) p v.mainValidation
      (by simp)
    have hx2 : x < now - v.mainValidation.leeway := by
      rw [mainValidation_leeway]; exact hx
    have hval : validateClaims now p v.mainValidation =
        .error .expiredSignature := by
      simp [validateClaims, hexp, hx2]
    simp [Verifier.verify, Verifier.key_id, hk, Verifier.decode, hparse,
      Verifier.cidCheck, hcid, jwtDecode, hsig, hval]
  · rw [if_neg hx]
    exact verify_no_cid_ok v now kid k p x hk hparse hcid hiss hexp hx haud

/-- Payload fixture expiring exactly at the leeway boundary for `now = 1000`
under the 120-second default: `now - exp = 120`. -/
def boundaryPayload : Payload := { iss := some "https://issuer", exp := some 880 }

/-- Token fixture signing `boundaryPayload` with `kRS256`. -/
def boundaryToken : Token := signToken "mod1" "AQAB" .RS256 (some "kid1") boundaryPayload

/-- Witness for C5: at the exact boundary `now - exp = leeway = 120` the
token still verifies. -/
theorem c5_token_expiry_boundary_witness :
    baseVerifier.verify 1000 boundaryToken = .ok boundaryPayload := by
  have h := c5_token_expiry_boundary baseVerifier 1000 "kid1" kRS256
    boundaryPayload 880 rfl rfl rfl rfl rfl (by decide) (Or.inl rfl)
  simpa [baseVerifier, Verifier.new] using h

/-- C4: when a client id is configured, a token whose `cid` claim differs
from it fails with ClientIdMismatch even when the signature and every other
claim are valid, and no claims are returned. -/
theorem c4_client_id_mismatch (v : Verifier) (now : Nat) (kid : String)
    (k : Jwk) (p : Payload) (cidCfg c : String) (x : Nat)
    (hk : v.keys.where_id kid = some k)
    (hparse : jwkParses k = true)
    (hcid : v.cid = some cidCfg)
    (hpcid : p.cid = some c)
    (hne : c ≠ cidCfg)
    (hexp : p.exp = some x)
    (hfresh : ¬ x < now - 60) :
    v.verify now (signToken k.n k.e .RS256 (some kid) p) =
      .error .clientIdMismatch := by
  have hsig := verifySignature_signToken k.n k.e (some kid) p
    (Validation.new .RS256) (by decide)
  have hval : validateClaims now p (Validation.new .RS256) = .ok () := by
    simp [validateClaims, checkAud, Validation.new, hexp, hfresh]
  simp [Verifier.verify, Verifier.key_id, hk, Verifier.decode, hparse,
    Verifier.cidCheck, hcid, jwtDecodeClientId, hsig, hpcid, hval, hne]

/-- Verifier fixture with client id `app1` configured. -/
def cidVerifier : Verifier := (Verifier.new "https://issuer" [kRS256]).client_id "app1"

/-- Payload fixture carrying the mismatching client id `other`. -/
def mismatchPayload : Payload :=
  { iss := some "https://issuer", exp := some 2000, cid := some "other" }

/-- Token fixture signing `mismatchPayload` with `kRS256`. -/
def mismatchToken : Token := signToken "mod1" "AQAB" .RS256 (some "kid1") mismatchPayload

/-- Witness for C4 at a concrete verifier and token. -/
theorem c4_client_id_mismatch_witness :
    cidVerifier.verify 1000 mismatchToken = .error .clientIdMismatch :=
  c4_client_id_mismatch cidVerifier 1000 "kid1" kRS256 mismatchPayload
    "app1" "other" 2000 rfl rfl rfl rfl (by decide) rfl (by decide)

/-- C10: when a client id is configured and the payload carries no `cid`
claim at all, the preliminary decode of the `ClientId` projection fails
with the claim-deserialization JSON error, not with ClientIdMismatch, and
no claims are returned. -/
theorem c10_missing_cid_json_error (v : Verifier) (now : Nat) (kid : String)
    (k : Jwk) (p : Payload) (cidCfg : String) (x : Nat)
    (hk : v.keys.where_id kid = some k)
    (hparse : jwkParses k = true)
    (hcid : v.cid = some cidCfg)
    (hpcid : p.cid = none)
    (hexp : p.exp = some x)
    (hfresh : ¬ x < now - 60) :
    v.verify now (signToken k.n k.e .RS256 (some kid) p) =
      .error (.jwt .jsonError) := by
  have hsig := verifySignature_signToken k.n k.e (some kid) p
    (Validation.new .RS256) (by decide)
  simp [Verifier.verify, Verifier.key_id, hk, Verifier.decode, hparse,
    Verifier.cidCheck, hcid, jwtDecodeClientId, hsig, hpcid]

/-- Payload fixture with valid claims but no `cid` claim. -/
def noCidPayload : Payload := { iss := some "https://issuer", exp := some 2000 }

/-- Token fixture signing `noCidPayload` with `kRS256`. -/
def noCidToken : Token := signToken "mod1" "AQAB" .RS256 (some "kid1") noCidPayload

/-- Witness for C10 at a concrete verifier and token. -/
theorem c10_missing_cid_json_error_witness :
    cidVerifier.verify 1000 noCidToken = .error (.jwt .jsonError) :=
  c10_missing_cid_json_error cidVerifier 1000 "kid1" kRS256 noCidPayload
    "app1" 2000 rfl rfl rfl rfl rfl (by decide)

/-- Payload fixture with matching client id `app1` but expired by 100
seconds at `now = 1000`: less than the 120-second default leeway, yet more
than the 60-second default of the preliminary cid validation. -/
def expiredCidPayload : Payload :=
  { iss := some "https://issuer", exp := some 900, cid := some "app1" }

/-- Token fixture signing `expiredCidPayload` with `kRS256`. -/
def expiredCidToken : Token := signToken "mod1" "AQAB" .RS256 (some "kid1") expiredCidPayload

/-- Counterexample for C5 as stated: on a verifier with a configured client
id and the default 120-second leeway, a correctly signed token expired by
only 100 seconds — less than the leeway — nevertheless fails with
TokenExpired, because the preliminary cid decode runs with the
`jsonwebtoken` default validation whose leeway is 60 seconds. -/
theorem c5_leeway_counterexample :
    (1000 - 900 < 120)
    ∧ cidVerifier.leeway = none
    ∧ cidVerifier.verify 1000 expiredCidToken = .error (.jwt .expiredSignature) :=
  ⟨by decide, rfl, rfl⟩

/-- Helper for C1: a successful `jsonwebtoken` decode means the token's
header algorithm was in the validation's allowed set. -/
theorem jwtDecode_ok_alg {now : Nat} {t : Token} {kn ke : String}
    {val : Validation} {p : Payload}
    (h : jwtDecode now t kn ke val = .ok p) :
    t.header.alg ∈ val.algorithms := by
  by_cases hm : t.header.alg ∈ val.algorithms
  · exact hm
  · unfold jwtDecode verifySignature at h
    rw [if_neg hm] at h
    simp at h

/-- C1 (amended): the signing algorithm used by the
signature-and-claims validation step is always RS256 — the hard-coded
`Validation::new(Algorithm::RS256)` — regardless of the resolved key's
declared `alg` metadata, so a decode can only succeed for a token whose
header algorithm is RS256. -/
theorem c1_signing_alg_always_rs256 (v : Verifier) (now : Nat) (t : Token)
    (k : Jwk) (p : Payload)
    (h : v.decode now t k = .ok p) :
    t.header.alg = Alg.RS256 := by
  unfold Verifier.decode at h
  split at h
  · cases hc : v.cidCheck now t k with
    | error e => rw [hc] at h; simp at h
    | ok u =>
        rw [hc] at h
        cases hd : jwtDecode now t k.n k.e v.mainValidation with
        | error e => rw [hd] at h; simp at h
        | ok q =>
            have hmem := jwtDecode_ok_alg hd
            simpa using hmem
  · simp at h

/-- Witness for C1's amended theorem at a concrete successful decode. -/
theorem c1_signing_alg_always_rs256_witness :
    baseToken.header.alg = Alg.RS256 :=
  c1_signing_alg_always_rs256 baseVerifier 1000 baseToken kRS256 basePayload rfl

/-- Token fixture: `basePayload` signed with RS384 by the private
counterpart of `kRS384`, advertising `kid1` and RS384 in the header. -/
def tokenRS384 : Token := signToken "mod1" "AQAB" .RS384 (some "kid1") basePayload

/-- Verifier fixture holding only `kRS384`. -/
def verifierRS384 : Verifier := Verifier.new "https://issuer" [kRS384]

/-- Counterexample for C1 as stated: the resolved key declares algorithm
RS384, the token is signed with RS384 by that key's private counterpart and
all claims are valid, yet verification does not use the declared algorithm:
it fails at the `JsonWebKey` parse of the key (`src/lib.rs` line 356),
since the `jsonwebkey` 0.3 `Algorithm` enum has no RS384 variant, before
any signature or claim check — and had the key parsed, validation would
still have run with the hard-coded RS256. -/
theorem c1_declared_alg_counterexample :
    kRS384.alg = "RS384"
    ∧ verifierRS384.keys.where_id "kid1" = some kRS384
    ∧ jwkParses kRS384 = false
    ∧ verifierRS384.verify 1000 tokenRS384 = .error .keyParse :=
  ⟨rfl, rfl, rfl, rfl⟩

/-- C6: a token whose header `kid` is absent from the keystore fails with
NoMatchingKey; no decode (signature or claim work) is reached, as the
result is exactly the `No matching key found!` failure. -/
theorem c6_no_matching_key (v : Verifier) (now : Nat) (t : Token) (kid : String)
    (hkid : t.header.kid = some kid)
    (habs : v.keys.where_id kid = none) :
    v.verify now t = .error .noMatchingKey := by
  simp [Verifier.verify, Verifier.key_id, hkid, habs]

/-- Token fixture advertising a key id absent from `baseVerifier`. -/
def tokenOtherKid : Token := signToken "mod1" "AQAB" .RS256 (some "kidX") basePayload

/-- Witness for C6 at a concrete verifier and token. -/
theorem c6_no_matching_key_witness :
    baseVerifier.verify 1000 tokenOtherKid = .error .noMatchingKey :=
  c6_no_matching_key baseVerifier 1000 tokenOtherKid "kidX" rfl rfl

/-- C7: a token whose parsed header carries no key id fails with NoKeyId
before any key lookup or decode, and when a key id is present it is exactly
the one used for the keystore lookup. -/
theorem c7_key_id_gate (v : Verifier) (now : Nat) (t : Token) :
    (t.header.kid = none → v.verify now t = .error .noKeyId)
    ∧ (∀ kid, t.header.kid = some kid →
        v.verify now t =
          match v.keys.where_id kid with
          | some k => v.decode now t k
          | none => .error .noMatchingKey) := by
  constructor
  · intro h
    simp [Verifier.verify, Verifier.key_id, h]
  · intro kid h
    simp [Verifier.verify, Verifier.key_id, h]

/-- Token fixture whose header carries no key id. -/
def tokenNoKid : Token := signToken "mod1" "AQAB" .RS256 none basePayload

/-- Witness for C7 at a concrete verifier and a token without a key id. -/
theorem c7_key_id_gate_witness :
    baseVerifier.verify 1000 tokenNoKid = .error .noKeyId :=
  (c7_key_id_gate baseVerifier 1000 tokenNoKid).1 rfl

/-- Helper for C8: looking up `kid` after folding inserts over a key list
yields the last key of the list with that `kid`, falling back to the
initial map. -/
theorem foldl_insert_lookup (kid : String) (m : KeyMap) (keys : List Jwk) :
    (keys.foldl (fun acc k => acc.insert k.kid k) m) kid
      = ((keys.filter (fun k => k.kid == kid)).getLast?).or (m kid) := by
  induction keys using List.reverseRecOn with
  | nil => simp
  | append_singleton l a ih =>
      rw [List.foldl_append]
      by_cases hc : a.kid = kid
      · simp [List.filter_append, hc, KeyMap.insert, List.getLast?_concat]
      · simp [List.filter_append, hc, KeyMap.insert, ih, Ne.symm hc]

/-- C8: the keystore built from a JWKS response maps each `kid` to a key,
later duplicates overwriting earlier ones in response order: lookup by
`kid` returns exactly the last key of the response with that `kid`, and
none for any identifier not present. -/
theorem c8_keystore_last_wins (keys : List Jwk) (kid : String) :
    (buildJwks keys).where_id kid
      = (keys.filter (fun k => k.kid == kid)).getLast? := by
  have h := foldl_insert_lookup kid KeyMap.empty keys
  simpa [buildJwks, Jwks.where_id, KeyMap.empty] using h

/-- C9: `audience` stores exactly the given set, so the last `audience`
call wins — any previously configured set (whether set via `audience` or
`add_audience`) is replaced entirely. -/
theorem c9_audience_replaces (v : Verifier) (s1 s2 : Finset String) :
    ((v.audience s1).audience s2).aud = some s2 := rfl

/-- C2 (code bug): evaluating `add_audience` at a verifier that already has
a configured audience set shows the new entry is dropped — the source
inserts into a clone of `self.aud` and never writes it back — while the
claim (and the function's own documentation) promise the entry is added.
The no-audience branch does store the singleton, as the second conjunct
shows. -/
theorem c2_add_audience_insert_dropped :
    ((((Verifier.new "https://issuer" []).audience {"api://default"}).add_audience
        "api://admin").aud = some {"api://default"}
      ∧ "api://admin" ∉ ({"api://default"} : Finset String))
    ∧ (((Verifier.new "https://issuer" []).add_audience "api://admin").aud
        = some {"api://admin"}) := by
  refine ⟨⟨rfl, ?_⟩, rfl⟩
  simp
